import Mathlib

/-!
# Verification of the ThreatGPT simulation platform

A shallow embedding, in Lean 4, of the parts of the ThreatGPT code base that
the specification's checkable claims are about:

* `src/threatgpt/llm/manager.py` — `LLMManager.generate_content`,
  `LLMManager._get_provider`, `LLMManager._validate_response`;
* `src/threatgpt/core/simulator.py` — `ThreatSimulator.execute_simulation`,
  `ThreatSimulator._execute_stages`, `ThreatSimulator._generate_stage_content`;
* `src/threatgpt/llm/providers/openrouter_provider.py` —
  `OpenRouterProvider.generate_content`;
* `src/threatgpt/deployment/__init__.py` — `CampaignMetrics`;
* `src/threatgpt/utils/auto_content_saver.py` —
  `AutoContentSaver.categorize_content`, `AutoContentSaver.ensure_directories`,
  `AutoContentSaver.save_content_item`;
* `fix_templates.py` — `TemplateFixer.fix_template`.

Modelling conventions:

* Python strings are embedded as `List Char` (written via `"...".data`) so that
  every operation computes in the kernel; `x in y` on strings is `containsC`,
  `str.lower()` is `lowerStr`, `str.strip()` is `stripC`, `str.startswith` is
  `startsWith`.
* Python numbers entering division are embedded as exact rationals `ℚ`.  The
  divisions performed by the code act on small integer counters, where float
  and rational semantics agree on the claims checked here.
* `async` calls to external services (LLM providers, HTTP endpoints, clocks)
  are embedded as oracle functions supplied as arguments; a Python `None`
  result is `Option.none`, and a raised exception is an explicit constructor
  of an outcome type.  A Python function that may raise is embedded with
  result type `Except`.
* Mutation of `self` / of response objects is embedded as explicit state
  passing; optional Python attributes (set by `setattr` / read by `getattr`
  with a default) are `Option` fields.
-/

/-! ## String helpers (Python `str` operations over `List Char`) -/

/-- Lowercase every character: Python `s.lower()`. -/
def lowerStr (s : List Char) : List Char := s.map Char.toLower

/-- Bool test that `p` is a prefix of `s`. -/
def isPrefixC : List Char → List Char → Bool
  | [], _ => true
  | _ :: _, [] => false
  | p :: ps, c :: cs => p == c && isPrefixC ps cs

/-- Python's substring test `pat in s`. -/
def containsC (s pat : List Char) : Bool :=
  match s with
  | [] => isPrefixC pat []
  | _ :: rest => isPrefixC pat s || containsC rest pat

/-- Python `s.startswith(p)`. -/
def startsWith (s p : List Char) : Bool := isPrefixC p s

/-- Python `s.strip()`: drop leading and trailing whitespace. -/
def stripC (s : List Char) : List Char :=
  ((s.dropWhile Char.isWhitespace).reverse.dropWhile Char.isWhitespace).reverse

/-- Value of a nonempty list of decimal digits. -/
def digitsToNat (l : List Char) : Nat :=
  l.foldl (fun a c => 10 * a + (c.toNat - 48)) 0

/-- Model of Python `int(s)` on a string: optional surrounding whitespace,
optional sign, then at least one ASCII digit; `none` when `int` would raise
`ValueError`.  (Unicode digits and `_` separators are not modelled; none of
the templates this runs on use them.) -/
def pyInt? (s : List Char) : Option Int :=
  let t := stripC s
  match t with
  | '+' :: rest =>
      if rest ≠ [] ∧ rest.all Char.isDigit then some (digitsToNat rest) else none
  | '-' :: rest =>
      if rest ≠ [] ∧ rest.all Char.isDigit then some (-(digitsToNat rest : Int)) else none
  | _ =>
      if t ≠ [] ∧ t.all Char.isDigit then some (digitsToNat t) else none

/-- First maximal run of ASCII digits of a string: Python
`re.findall(r"\d+", s)[0]`, `none` when `findall` returns no match. -/
def firstDigits : List Char → Option (List Char)
  | [] => none
  | c :: rest =>
      if c.isDigit then some (c :: rest.takeWhile Char.isDigit)
      else firstDigits rest

/-! ## LLM manager (`src/threatgpt/llm/manager.py`)

`LLMResponse` (from `llm/base.py`) is a bare object holding `content`; the
manager and the providers attach further attributes dynamically, so every
other field is an `Option` (`none` = attribute absent / `hasattr` false).
The concrete in-repo `LLMResponse` never carries a `metadata` attribute, so
`_validate_response` always takes its attribute-setting branch. -/

structure LLMResponse where
  content : List Char
  provider : Option (List Char) := none
  model : Option (List Char) := none
  error : Option (List Char) := none
  scenario_type : Option (List Char) := none
  is_real_ai : Option Bool := none
  safety_validated : Bool := false
deriving DecidableEq, Repr

/-- Outcome of `await provider.generate_content(...)` as observed by the
manager: a returned response, a returned Python `None`, or a raised
exception carrying its message `str(e)`. -/
inductive ProviderCall where
  | ret (r : LLMResponse)
  | retNone
  | raises (msg : List Char)

/-- The provider-selection state of an `LLMManager`: the names registered in
`self._providers` (a dict keyed by name, in insertion order) and the default
`self.provider`, here identified by name. -/
structure LLMManager where
  providers : List (List Char)
  provider : Option (List Char) := none

namespace LLMManager

/-- `LLMManager._get_provider`: an explicitly requested (truthy) name that is
registered wins; otherwise the default provider; otherwise the first
registered provider; otherwise `None`. -/
def get_provider (m : LLMManager) (provider_name : Option (List Char)) :
    Option (List Char) :=
  match provider_name with
  | some n =>
      if n ≠ [] ∧ n ∈ m.providers then some n
      else match m.provider with
        | some p => some p
        | none => m.providers.head?
  | none =>
      match m.provider with
      | some p => some p
      | none => m.providers.head?

/-- The fallback response the manager builds in its `except` handler. -/
def fallbackResponse (scenario_type msg : List Char) : LLMResponse :=
  { content := "[FALLBACK CONTENT] Unable to generate real AI content for ".data
      ++ scenario_type ++ " scenario. Error: ".data ++ msg
    provider := some "fallback".data
    model := some "none".data
    error := some msg
    scenario_type := some scenario_type
    is_real_ai := some false }

/-- `LLMManager._validate_response`.  The in-repo `LLMResponse` has no
`metadata` attribute, so the final block sets the attributes directly;
`getattr(response, 'is_real_ai', False)` is `r.is_real_ai.getD false`.
Timestamp stamping (`validation_timestamp`) is wall-clock I/O and is not
tracked. -/
def validate_response (r : LLMResponse) (scenario_type : List Char) : LLMResponse :=
  let r :=
    if r.content = [] ∨ (stripC r.content).length < 10 then
      { r with
        content := "[Insufficient content generated for ".data ++ scenario_type
          ++ " scenario]".data
        is_real_ai := some false }
    else r
  let r :=
    if startsWith r.content "[FALLBACK".data
        ∨ startsWith r.content "[Content generation unavailable".data then
      { r with is_real_ai := some false }
    else r
  { r with
    safety_validated := true
    scenario_type := some scenario_type
    is_real_ai := some (r.is_real_ai.getD false) }

/-- `LLMManager.generate_content`.  `call` is the oracle for
`await provider.generate_content(...)` of the selected provider; the
enhanced prompt construction is pure string concatenation and does not
affect the claims, so the prompt is not tracked.  A raised
`RuntimeError("No LLM provider available")` is the `Except.error` case;
everything raised inside the `try` block is caught and converted to the
fallback response. -/
def generate_content (m : LLMManager) (call : List Char → ProviderCall)
    (scenario_type : List Char) (provider_name : Option (List Char)) :
    Except (List Char) LLMResponse :=
  match m.get_provider provider_name with
  | none => .error "No LLM provider available".data
  | some p =>
    match call p with
    | .raises msg => .ok (fallbackResponse scenario_type msg)
    | .retNone =>
        .ok (fallbackResponse scenario_type "Provider returned None response".data)
    | .ret r =>
        if r.provider.isSome ∧ r.provider ≠ some "fallback".data then
          { (validate_response r scenario_type) with is_real_ai := some true : LLMResponse }
            |> .ok
        else
          .ok { r with is_real_ai := some false }

end LLMManager

/-! ## Core simulator (`src/threatgpt/core/simulator.py`)

`SimulationResult`, `SimulationStage`, `SimulationStatus` live in
`threatgpt/core/models.py`, which is not present under `src/`; their fields
and the two mutators are modelled from the spec (§3 data model and §4.3
state machine).  The driving loop `_execute_stages`, `execute_simulation`
and `_generate_stage_content` are translated from `simulator.py` itself. -/

/-- Modelled from the spec: `SimulationStatus` state machine
`PENDING → RUNNING → {COMPLETED, FAILED, CANCELLED}` (models.py is not in
`src/`). -/
inductive SimulationStatus where
  | pending | running | completed | failed | cancelled
deriving DecidableEq, Repr

/-- Modelled from the spec: `SimulationStage` fields (§3); `metadata` is
represented by the stage number it records.  `duration_seconds` defaults to
`0` and is stamped with the wall-clock delta on success. -/
structure SimulationStage where
  stage_type : List Char
  content : List Char
  success : Bool
  error_message : Option (List Char) := none
  duration_seconds : ℚ := 0
  stage_number : Nat := 0
deriving DecidableEq, Repr

/-- Modelled from the spec: `SimulationResult` fields (§3). -/
structure SimulationResult where
  status : SimulationStatus
  stages : List SimulationStage := []
  success : Option Bool := none
  error_message : Option (List Char) := none
deriving DecidableEq, Repr

namespace SimulationResult

/-- Modelled from the spec: `SimulationResult.add_stage(stage)` appends to
the stage list. -/
def add_stage (r : SimulationResult) (s : SimulationStage) : SimulationResult :=
  { r with stages := r.stages ++ [s] }

/-- Modelled from the spec: `SimulationResult.mark_completed(success,
error_message)` transitions the status to the terminal `COMPLETED`/`FAILED`
state (and stamps `end_time`, which is wall-clock I/O and not tracked). -/
def mark_completed (r : SimulationResult) (success : Bool)
    (error_message : Option (List Char)) : SimulationResult :=
  { r with
    status := if success then .completed else .failed
    success := some success
    error_message := error_message }

end SimulationResult

namespace ThreatSimulator

/-- The outcome of one loop iteration's `await self._generate_stage_content
(...)`: the produced text, or a raised exception with message `str(e)`. -/
inductive StageGen where
  | ok (content : List Char)
  | raise (msg : List Char)

/-- `stages_config` of `_execute_stages`: the fixed 7-stage pipeline. -/
def stages_config : List (List Char × List Char) :=
  [("reconnaissance".data, "Initial target reconnaissance".data),
   ("attack_planning".data, "Plan attack methodology".data),
   ("execution".data, "Execute the threat scenario".data),
   ("persistence".data, "Establish persistence mechanisms".data),
   ("data_collection".data, "Collect target information".data),
   ("exfiltration".data, "Data exfiltration simulation".data),
   ("cleanup".data, "Clean up simulation artifacts".data)]

/-- The `"critical" in str(e).lower()` test of `_execute_stages`. -/
def criticalC (msg : List Char) : Bool :=
  containsC (lowerStr msg) "critical".data

/-- The loop body of `_execute_stages` over `enumerate(stages_config
[:max_stages])`.  `gen i` is the oracle for stage `i`'s content generation;
`clock` is the oracle for `datetime.utcnow()`, read at position `2*i` for
`stage_start` and `2*i + 1` for `stage_end` of stage `i`.  A successful
stage is appended with its wall-clock duration; a raised generation is
appended as a failed stage, and the loop breaks when the error text
contains `"critical"` case-insensitively. -/
def execute_stages_go (gen : Nat → StageGen) (clock : Nat → ℚ) :
    List (List Char × List Char) → Nat → SimulationResult → SimulationResult
  | [], _, result => result
  | cfg :: rest, i, result =>
    match gen i with
    | .ok content =>
        let stage : SimulationStage :=
          { stage_type := cfg.1
            content := content
            success := true
            duration_seconds := clock (2 * i + 1) - clock (2 * i)
            stage_number := i + 1 }
        execute_stages_go gen clock rest (i + 1) (result.add_stage stage)
    | .raise msg =>
        let stage : SimulationStage :=
          { stage_type := cfg.1
            content := "Stage execution failed".data
            success := false
            error_message := some msg
            stage_number := i + 1 }
        let result := result.add_stage stage
        if criticalC msg then result
        else execute_stages_go gen clock rest (i + 1) result

/-- `ThreatSimulator._execute_stages`: run the pipeline, capped at
`max_stages` (the Python slice `stages_config[:self.max_stages]`). -/
def execute_stages (max_stages : Nat) (gen : Nat → StageGen) (clock : Nat → ℚ)
    (result : SimulationResult) : SimulationResult :=
  execute_stages_go gen clock (stages_config.take max_stages) 0 result

/-- `ThreatSimulator.execute_simulation`: reject a falsy scenario name with
`ValueError` (the `Except.error` case), otherwise run the stages on a
fresh `RUNNING` result and mark it completed with `success=True` (stage
failures are absorbed inside the loop, so the `except` branch that marks
`success=False` is not reached by loop-level stage failures). -/
def execute_simulation (max_stages : Nat) (gen : Nat → StageGen)
    (clock : Nat → ℚ) (scenario_name : List Char) :
    Except (List Char) SimulationResult :=
  if scenario_name = [] then .error "Scenario must have a valid name".data
  else
    let result : SimulationResult := { status := .running }
    .ok ((execute_stages max_stages gen clock result).mark_completed true none)

/-- A provider response as inspected by `_generate_stage_content`:
`response.content` plus `getattr(response, 'finish_reason', None)`. -/
structure StageResponse where
  content : List Char
  finish_reason : Option (List Char) := none
deriving DecidableEq, Repr

/-- The truncation-retry logic of `ThreatSimulator._generate_stage_content`.
`llm n` is the oracle for `await self.llm_provider.generate_content(...,
max_tokens=n, ...)` (`none` = Python `None`).  Returns the produced content
together with the list of `max_tokens` values of the provider calls made.
`int(max_tokens * 1.5)` equals `3 * max_tokens / 2` in `Nat` arithmetic
(the float product is exact for every realistic token budget and `int`
truncates toward zero).  The surrounding `try`/`except` and the
no-provider branch both return fallback content with no provider call. -/
def generate_stage_content (available : Bool) (llm : Nat → Option StageResponse)
    (max_tokens : Nat) (fallback : List Char) : List Char × List Nat :=
  if available = false then (fallback, [])
  else
    match llm max_tokens with
    | none => (fallback, [max_tokens])
    | some r =>
      if r.content = [] then (fallback, [max_tokens])
      else if r.finish_reason = some "length".data then
        let retryTokens := 3 * max_tokens / 2
        match llm retryTokens with
        | none => (r.content, [max_tokens, retryTokens])
        | some r2 =>
            if r2.content = [] then (r.content, [max_tokens, retryTokens])
            else (r2.content, [max_tokens, retryTokens])
      else (r.content, [max_tokens])

end ThreatSimulator

/-! ## OpenRouter provider
(`src/threatgpt/llm/providers/openrouter_provider.py`) -/

namespace OpenRouterProvider

/-- What one HTTP attempt against `{base_url}/chat/completions` yields:
a response with an HTTP status and the `choices[].message.content` list of
the decoded JSON body, an `asyncio.TimeoutError`, or an
`aiohttp.ClientError`. -/
inductive Attempt where
  | response (status : Nat) (choices : List (List Char))
  | timeout
  | clientError (msg : List Char)

/-- A successful OpenRouter result as built by the provider (`LLMResponse`
plus the attributes it attaches; usage metadata is not tracked). -/
structure ORResult where
  content : List Char
  provider : List Char
  model : List Char
deriving DecidableEq, Repr

/-- The retry loop of `OpenRouterProvider.generate_content`, iterating over
`range(max_retries + 1)`.  Returns the result (`none` = the Python function
returns `None`), the number of attempts performed, and the list of backoff
delays `retry_delay * (attempt + 1)` slept between attempts.  On HTTP 200
with a nonempty `choices` the first choice is returned; HTTP 200 with no
choices returns `None` immediately; any other status, a timeout or a client
error retries until `attempt == max_retries`, then returns `None`.  Every
exception is caught inside the loop (or by the outer catch-all), so the
embedding is total. -/
def orLoop (att : Nat → Attempt) (model : List Char) (retry_delay : ℚ)
    (max_retries : Nat) : List Nat → Option ORResult × Nat × List ℚ
  | [] => (none, 0, [])
  | attempt :: rest =>
    match att attempt with
    | .response status choices =>
        if status = 200 then
          match choices with
          | c :: _ =>
              (some { content := c, provider := "openrouter".data, model := model },
               1, [])
          | [] => (none, 1, [])
        else if attempt = max_retries then (none, 1, [])
        else
          let recres := orLoop att model retry_delay max_retries rest
          (recres.1, recres.2.1 + 1, retry_delay * (attempt + 1) :: recres.2.2)
    | .timeout =>
        if attempt = max_retries then (none, 1, [])
        else
          let recres := orLoop att model retry_delay max_retries rest
          (recres.1, recres.2.1 + 1, retry_delay * (attempt + 1) :: recres.2.2)
    | .clientError _ =>
        if attempt = max_retries then (none, 1, [])
        else
          let recres := orLoop att model retry_delay max_retries rest
          (recres.1, recres.2.1 + 1, retry_delay * (attempt + 1) :: recres.2.2)

/-- `OpenRouterProvider.generate_content`: without an API key the provider
is unavailable and returns `None` with no HTTP attempt; otherwise the
retry loop runs with `max_retries = 2` and `retry_delay = 1.0` over
attempts `0, 1, 2`. -/
def generate_content (api_key : Option (List Char)) (model : List Char)
    (att : Nat → Attempt) : Option ORResult × Nat × List ℚ :=
  match api_key with
  | none => (none, 0, [])
  | some _ => orLoop att model 1 2 (List.range 3)

end OpenRouterProvider

/-! ## Campaign metrics (`src/threatgpt/deployment/__init__.py`) -/

/-- `CampaignMetrics` counters entering the two derived-rate formulas
(pydantic `int` fields, default 0). -/
structure CampaignMetrics where
  emails_sent : Int := 0
  emails_opened : Int := 0
  links_clicked : Int := 0
  attachments_downloaded : Int := 0
  credentials_submitted : Int := 0
  sms_sent : Int := 0
  sms_clicked : Int := 0
  voice_calls_attempted : Int := 0
  voice_calls_successful : Int := 0
deriving DecidableEq, Repr

namespace CampaignMetrics

/-- `CampaignMetrics.calculate_engagement_rate` (float division embedded as
exact rational division; the guard avoids division by zero exactly as the
code does). -/
def calculate_engagement_rate (m : CampaignMetrics) : ℚ :=
  if m.emails_sent = 0 then 0
  else ((m.emails_opened : ℚ) + (m.links_clicked : ℚ)) / (m.emails_sent : ℚ)

/-- `CampaignMetrics.calculate_success_rate`. -/
def calculate_success_rate (m : CampaignMetrics) : ℚ :=
  let total_interactions : Int :=
    m.links_clicked + m.attachments_downloaded + m.credentials_submitted
      + m.sms_clicked + m.voice_calls_successful
  let total_attempts : Int :=
    m.emails_sent + m.sms_sent + m.voice_calls_attempted
  if total_attempts = 0 then 0
  else (total_interactions : ℚ) / (total_attempts : ℚ)

end CampaignMetrics

/-! ## Auto content saver (`src/threatgpt/utils/auto_content_saver.py`) -/

namespace AutoContentSaver

/-- The five category directories created by
`AutoContentSaver.ensure_directories` under `generated_content/`. -/
def ensure_directories : List (List Char) :=
  ["scenarios".data, "phone_scripts".data, "email_templates".data,
   "training_materials".data, "reports".data]

/-- The phone/voice content test of the first `categorize_content` branch:
`"phone" in content_lower and ("script" in content_lower or "call" in
content_lower or "conversation" in content_lower)`. -/
def phoneContentCond (cl : List Char) : Bool :=
  containsC cl "phone".data
    && (containsC cl "script".data || containsC cl "call".data
        || containsC cl "conversation".data)

/-- The email content test of the second branch: `"email" in content_lower
and ("subject:" in content_lower or "from:" in content_lower or "to:" in
content_lower)`. -/
def emailContentCond (cl : List Char) : Bool :=
  containsC cl "email".data
    && (containsC cl "subject:".data || containsC cl "from:".data
        || containsC cl "to:".data)

/-- `threat_type.lower() in ["social_engineering", "vishing"]` (used by the
first branch and by the default mapping). -/
def ttPhoneCond (tl : List Char) : Bool :=
  tl == "social_engineering".data || tl == "vishing".data

/-- `threat_type.lower() in ["phishing", "spear_phishing", "bec",
"business_email_compromise"]`. -/
def ttEmailCond (tl : List Char) : Bool :=
  tl == "phishing".data || tl == "spear_phishing".data
    || tl == "bec".data || tl == "business_email_compromise".data

/-- `threat_type.lower() in ["sms_phishing", "smishing"]` (used by the SMS
branch and the default mapping). -/
def ttSmsCond (tl : List Char) : Bool :=
  tl == "sms_phishing".data || tl == "smishing".data

/-- `threat_type.lower() in ["phishing", "spear_phishing", "bec"]` of the
default mapping. -/
def ttEmailDefaultCond (tl : List Char) : Bool :=
  tl == "phishing".data || tl == "spear_phishing".data || tl == "bec".data

/-- `AutoContentSaver.categorize_content`: the priority-ordered branch chain
over `(content.lower(), threat_type.lower())`, returning the
`(folder, category)` pair. -/
def categorize_content (content threat_type : List Char) : List Char × List Char :=
  let cl := lowerStr content
  let tl := lowerStr threat_type
  if ttPhoneCond tl || phoneContentCond cl then
    ("phone_scripts".data, "Phone Scripts".data)
  else if ttEmailCond tl || emailContentCond cl then
    ("email_templates".data, "Email Templates".data)
  else if ttSmsCond tl
      || (containsC cl "sms".data || containsC cl "text message".data
          || containsC cl "mobile".data) then
    ("scenarios".data, "SMS/Mobile Scenarios".data)
  else if containsC cl "reconnaissance".data || containsC cl "attack plan".data
      || containsC cl "osint".data || containsC cl "target profiling".data
      || containsC cl "infrastructure setup".data then
    ("scenarios".data, "Attack Planning".data)
  else if containsC cl "threat scenario".data || containsC cl "attack method".data
      || containsC cl "exploitation".data || containsC cl "payload".data
      || containsC cl "social engineering".data || containsC cl "pretext".data
      || containsC cl "lure".data || containsC cl "campaign".data then
    ("scenarios".data, "Threat Scenarios".data)
  else if containsC cl "training".data || containsC cl "awareness".data
      || containsC cl "educational".data || containsC cl "simulation".data then
    ("training_materials".data, "Training Materials".data)
  else if containsC cl "analysis".data || containsC cl "report".data
      || containsC cl "assessment".data || containsC cl "findings".data then
    ("reports".data, "Analysis Reports".data)
  else if ttEmailDefaultCond tl then
    ("email_templates".data, "Email Templates".data)
  else if ttPhoneCond tl then
    ("phone_scripts".data, "Phone Scripts".data)
  else if ttSmsCond tl then
    ("scenarios".data, "SMS Scenarios".data)
  else
    ("scenarios".data, "General Scenarios".data)

/-- The directory component under `generated_content/` that
`AutoContentSaver.save_content_item` writes a content item into: the
`folder` half of `categorize_content` (the filename carries timestamp,
scenario and index, not the directory). -/
def save_content_item_folder (content threat_type : List Char) : List Char :=
  (categorize_content content threat_type).1

end AutoContentSaver

/-! ## Template fixer (`fix_templates.py`)

The YAML document is embedded as a record of the fields
`TemplateFixer.fix_template` reads or writes; every scalar the fixer can
see is a `YVal` (`.nil` stands for an empty YAML list such as the default
`tags`/`references`, `.other` for any value of a shape the fixer leaves
untouched).  Keys the fixer never touches round-trip unchanged through
`yaml.safe_load`/`yaml.dump` and are not tracked.  Fix messages are
tracked as strings; only their multiset matters for the claims, so the
human-readable text is assembled from the same parts as in the source
(with a plain `->` for the arrow glyph). -/

inductive YVal where
  | int (n : Int)
  | str (s : List Char)
  | bool (b : Bool)
  | nil
  | other
deriving DecidableEq, Repr

namespace TemplateFixer

/-- `THREAT_TYPE_MAPPINGS` as a lookup. -/
def THREAT_TYPE_MAPPINGS (s : List Char) : Option (List Char) :=
  if s = "hybrid_attack".data then some "advanced_persistent_threat".data
  else if s = "multi_vector".data then some "advanced_persistent_threat".data
  else if s = "healthcare_targeted_attack".data then some "spear_phishing".data
  else if s = "multi_channel".data then some "phishing".data
  else if s = "supply_chain".data then some "advanced_persistent_threat".data
  else none

/-- `DELIVERY_VECTOR_MAPPINGS` as a lookup. -/
def DELIVERY_VECTOR_MAPPINGS (s : List Char) : Option (List Char) :=
  if s = "multi_channel".data then some "email".data
  else if s = "multi_vector".data then some "email".data
  else if s = "mixed".data then some "email".data
  else none

/-- `simulation_parameters`: the three integer-like and five boolean-like
keys the fixer coerces (each `none` when the key is absent). -/
structure SimParams where
  max_iterations : Option YVal := none
  max_duration_minutes : Option YVal := none
  urgency_level : Option YVal := none
  escalation_enabled : Option YVal := none
  response_adaptation : Option YVal := none
  compliance_mode : Option YVal := none
  content_filtering : Option YVal := none
  audit_logging : Option YVal := none
deriving DecidableEq, Repr

/-- `metadata`: the six required keys plus the two timestamps. -/
structure TMetadata where
  name : Option YVal := none
  description : Option YVal := none
  version : Option YVal := none
  author : Option YVal := none
  tags : Option YVal := none
  references : Option YVal := none
  created_at : Option YVal := none
  updated_at : Option YVal := none
deriving DecidableEq, Repr

/-- `target_profile`: the four keys the fixer validates. -/
structure TargetProfile where
  seniority : Option YVal := none
  technical_level : Option YVal := none
  industry : Option YVal := none
  company_size : Option YVal := none
deriving DecidableEq, Repr

/-- The template document (`yaml.safe_load` of the file), restricted to the
keys `fix_template` touches.  `unsupported` lists which keys of the file
belong to the fixer's unsupported-field blacklist. -/
structure Template where
  threat_type : Option YVal := none
  delivery_vector : Option YVal := none
  difficulty_level : Option YVal := none
  estimated_duration : Option YVal := none
  simulation_parameters : Option SimParams := none
  unsupported : List (List Char) := []
  metadata : Option TMetadata := none
  target_profile : Option TargetProfile := none
deriving DecidableEq, Repr

/-- The `threat_type` block: remap a known-bad string value. -/
def fixThreatType : Option YVal → List (List Char) × Option YVal
  | some (.str s) =>
    match THREAT_TYPE_MAPPINGS s with
    | some s' => (["threat_type: ".data ++ s ++ " -> ".data ++ s'], some (.str s'))
    | none => ([], some (.str s))
  | v => ([], v)

/-- The `delivery_vector` block. -/
def fixDeliveryVector : Option YVal → List (List Char) × Option YVal
  | some (.str s) =>
    match DELIVERY_VECTOR_MAPPINGS s with
    | some s' => (["delivery_vector: ".data ++ s ++ " -> ".data ++ s'], some (.str s'))
    | none => ([], some (.str s))
  | v => ([], v)

/-- The `difficulty_level` block: convert a string to `int`, defaulting to 5
when `int()` raises. -/
def fixDifficulty : Option YVal → List (List Char) × Option YVal
  | some (.str s) =>
    match pyInt? s with
    | some n => (["difficulty_level: converted string to integer".data], some (.int n))
    | none => (["difficulty_level: set default value of 5".data], some (.int 5))
  | v => ([], v)

/-- The `estimated_duration` block: extract the first digit run of a string;
a string with no digits is left as-is with no fix recorded. -/
def fixDuration : Option YVal → List (List Char) × Option YVal
  | some (.str s) =>
    match firstDigits s with
    | some ds =>
        (["estimated_duration: extracted number from string".data],
         some (.int (digitsToNat ds)))
    | none => ([], some (.str s))
  | v => ([], v)

/-- One integer-like `simulation_parameters` key: coerce a string with
`int()`, falling back to the key's default on `ValueError`. -/
def fixIntParam (label : List Char) (default : Int) :
    Option YVal → List (List Char) × Option YVal
  | some (.str s) =>
    match pyInt? s with
    | some n =>
        (["simulation_parameters.".data ++ label ++ ": converted to integer".data],
         some (.int n))
    | none =>
        (["simulation_parameters.".data ++ label ++ ": set default value".data],
         some (.int default))
  | v => ([], v)

/-- One boolean-like `simulation_parameters` key: a string becomes the truth
of `s.lower() in ("true", "yes", "1", "on")`. -/
def fixBoolParam (label : List Char) : Option YVal → List (List Char) × Option YVal
  | some (.str s) =>
    (["simulation_parameters.".data ++ label ++ ": converted to boolean".data],
     some (.bool (decide (lowerStr s ∈ ["true".data, "yes".data, "1".data, "on".data]))))
  | v => ([], v)

/-- The `simulation_parameters` block, visiting the keys in source order. -/
def fixSimParams : Option SimParams → List (List Char) × Option SimParams
  | none => ([], none)
  | some p =>
    let r1 := fixIntParam "max_iterations".data 3 p.max_iterations
    let r2 := fixIntParam "max_duration_minutes".data 60 p.max_duration_minutes
    let r3 := fixIntParam "urgency_level".data 5 p.urgency_level
    let r4 := fixBoolParam "escalation_enabled".data p.escalation_enabled
    let r5 := fixBoolParam "response_adaptation".data p.response_adaptation
    let r6 := fixBoolParam "compliance_mode".data p.compliance_mode
    let r7 := fixBoolParam "content_filtering".data p.content_filtering
    let r8 := fixBoolParam "audit_logging".data p.audit_logging
    (r1.1 ++ r2.1 ++ r3.1 ++ r4.1 ++ r5.1 ++ r6.1 ++ r7.1 ++ r8.1,
     some { max_iterations := r1.2, max_duration_minutes := r2.2,
            urgency_level := r3.2, escalation_enabled := r4.2,
            response_adaptation := r5.2, compliance_mode := r6.2,
            content_filtering := r7.2, audit_logging := r8.2 })

/-- The blacklist of unsupported fields, in source order. -/
def unsupportedFields : List (List Char) :=
  ["success_metrics".data, "compliance_controls".data,
   "post_simulation_analysis".data, "escalation_triggers".data,
   "adaptation_rules".data, "variable_definitions".data,
   "template_variables".data, "dynamic_content".data]

/-- The unsupported-field removal loop: one `del` (and one fix message) per
blacklisted key present. -/
def fixUnsupported (present : List (List Char)) :
    List (List Char) × List (List Char) :=
  ((unsupportedFields.filter (fun f => decide (f ∈ present))).map
      (fun f => "removed unsupported field: ".data ++ f),
   present.filter (fun f => decide (f ∉ unsupportedFields)))

/-- Fill one missing dictionary key with a default, recording a fix. -/
def fillField (msg : List Char) (default : YVal) :
    Option YVal → List (List Char) × Option YVal
  | none => ([msg], some default)
  | some v => ([], some v)

/-- Python `str.title()` applied after replacing `_` by a space: the default
`metadata.name` built from the file stem.  (`.title()` capitalizes the
letter after every non-letter and lowercases the rest; only ASCII-style
cased letters occur in template stems.) -/
def titleGo : Bool → List Char → List Char
  | _, [] => []
  | prevAlpha, c :: rest =>
    (if c.isAlpha then (if prevAlpha then c.toLower else c.toUpper) else c)
      :: titleGo c.isAlpha rest

/-- Default `metadata.name`: `template_file.stem.replace('_', ' ').title()`. -/
def titleName (stem : List Char) : List Char :=
  titleGo false (stem.map (fun c => if c = '_' then ' ' else c))

/-- The `metadata` block: create the section when missing, fill the six
required keys and then the two timestamps (`now` is the ISO timestamp
string computed once per call). -/
def fixMetadata (stem now : List Char) :
    Option TMetadata → List (List Char) × Option TMetadata
  | mOpt =>
    let (secMsgs, m) :=
      match mOpt with
      | none => (["added missing metadata section".data], ({} : TMetadata))
      | some m => ([], m)
    let r1 := fillField "added missing metadata.name".data (.str (titleName stem)) m.name
    let r2 := fillField "added missing metadata.description".data
        (.str "Threat scenario template".data) m.description
    let r3 := fillField "added missing metadata.version".data (.str "1.0.0".data) m.version
    let r4 := fillField "added missing metadata.author".data (.str "ThreatGPT".data) m.author
    let r5 := fillField "added missing metadata.tags".data .nil m.tags
    let r6 := fillField "added missing metadata.references".data .nil m.references
    let r7 := fillField "added metadata.created_at".data (.str now) m.created_at
    let r8 := fillField "added metadata.updated_at".data (.str now) m.updated_at
    (secMsgs ++ r1.1 ++ r2.1 ++ r3.1 ++ r4.1 ++ r5.1 ++ r6.1 ++ r7.1 ++ r8.1,
     some { name := r1.2, description := r2.2, version := r3.2, author := r4.2,
            tags := r5.2, references := r6.2, created_at := r7.2,
            updated_at := r8.2 })

/-- One `target_profile` key: a present value outside the valid set (any
non-string value included, since Python `in` on a list of strings matches
no non-string) is replaced by the given default. -/
def fixValidated (msg : List Char) (valid : List YVal) (default : YVal) :
    Option YVal → List (List Char) × Option YVal
  | none => ([], none)
  | some v => if v ∈ valid then ([], some v) else ([msg], some default)

/-- The `target_profile` block. -/
def fixTargetProfile : Option TargetProfile → List (List Char) × Option TargetProfile
  | none => ([], none)
  | some t =>
    let r1 := fixValidated "target_profile.seniority: set to valid value".data
        [.str "junior".data, .str "mid".data, .str "senior".data, .str "executive".data]
        (.str "mid".data) t.seniority
    let r2 := fixValidated "target_profile.technical_level: set to valid value".data
        [.str "low".data, .str "moderate".data, .str "high".data, .str "expert".data]
        (.str "moderate".data) t.technical_level
    let r3 := fixValidated "target_profile.industry: set to valid value".data
        [.str "technology".data, .str "finance".data, .str "healthcare".data,
         .str "government".data, .str "education".data, .str "retail".data,
         .str "manufacturing".data, .str "energy".data,
         .str "telecommunications".data, .str "other".data]
        (.str "technology".data) t.industry
    let r4 := fixValidated "target_profile.company_size: set to valid value".data
        [.str "startup".data, .str "small".data, .str "medium".data,
         .str "large".data, .str "enterprise".data]
        (.str "medium".data) t.company_size
    (r1.1 ++ r2.1 ++ r3.1 ++ r4.1,
     some { seniority := r1.2, technical_level := r2.2, industry := r3.2,
            company_size := r4.2 })

/-- `TemplateFixer.fix_template` on the parsed document: the fix blocks in
source order, returning the fix list and the fixed document.  The source
fixes the Python `target_profile` block before the save; the embedding
mirrors the same sequence.  (The seniority block runs inside the
`target_profile` check exactly as in the source.) -/
def fix_template (stem now : List Char) (t : Template) :
    List (List Char) × Template :=
  ((fixThreatType t.threat_type).1
     ++ (fixDeliveryVector t.delivery_vector).1
     ++ (fixDifficulty t.difficulty_level).1
     ++ (fixDuration t.estimated_duration).1
     ++ (fixSimParams t.simulation_parameters).1
     ++ (fixUnsupported t.unsupported).1
     ++ (fixMetadata stem now t.metadata).1
     ++ (fixTargetProfile t.target_profile).1,
   { threat_type := (fixThreatType t.threat_type).2
     delivery_vector := (fixDeliveryVector t.delivery_vector).2
     difficulty_level := (fixDifficulty t.difficulty_level).2
     estimated_duration := (fixDuration t.estimated_duration).2
     simulation_parameters := (fixSimParams t.simulation_parameters).2
     unsupported := (fixUnsupported t.unsupported).2
     metadata := (fixMetadata stem now t.metadata).2
     target_profile := (fixTargetProfile t.target_profile).2 })

/-- The file-level wrapper of `fix_template`: only when the fix list is
nonempty is a timestamped backup created and the file rewritten with the
fixed document (`yaml.dump`, reread by `yaml.safe_load` as the same
document).  Returns the on-disk document after the call and whether a
backup was created (= whether the file was rewritten). -/
def fix_template_file (stem now : List Char) (t : Template) : Template × Bool :=
  match fix_template stem now t with
  | ([], _) => (t, false)
  | (_ :: _, t') => (t', true)

end TemplateFixer

/-! ## Theorems -/

/-- Helper: `_get_provider` returns `None` exactly when the manager has no
default provider and no registered providers. -/
theorem LLMManager.get_provider_eq_none_iff (m : LLMManager)
    (pn : Option (List Char)) :
    m.get_provider pn = none ↔ m.provider = none ∧ m.providers = [] := by
  have hfb : (match m.provider with
      | some p => some p
      | none => m.providers.head?) = none
      ↔ m.provider = none ∧ m.providers = [] := by
    cases hp : m.provider with
    | none => simp [List.head?_eq_none_iff]
    | some p => simp
  unfold LLMManager.get_provider
  cases pn with
  | none => exact hfb
  | some n =>
    dsimp only
    by_cases hcond : n ≠ [] ∧ n ∈ m.providers
    · rw [if_pos hcond]
      constructor
      · intro h
        exact absurd h (by simp)
      · rintro ⟨h1, h2⟩
        rw [h2] at hcond
        exact absurd hcond.2 (List.not_mem_nil n)
    · rw [if_neg hcond]
      exact hfb

/-- C1: whenever at least one provider is available,
`LLMManager.generate_content` never raises: any exception from the provider
call is converted into the exact `[FALLBACK CONTENT]` response with
`provider="fallback"`, `model="none"`, `is_real_ai=False`; the call raises
(`RuntimeError("No LLM provider available")`) only when no provider is
registered or configured. -/
theorem claim_C1_generate_content_never_raises (m : LLMManager)
    (call : List Char → ProviderCall) (st : List Char)
    (pn : Option (List Char)) :
    ((m.provider ≠ none ∨ m.providers ≠ []) →
       ∃ r, m.generate_content call st pn = .ok r) ∧
    (∀ p msg, m.get_provider pn = some p → call p = .raises msg →
       m.generate_content call st pn = .ok (LLMManager.fallbackResponse st msg)) ∧
    ((m.provider = none ∧ m.providers = []) →
       m.generate_content call st pn = .error "No LLM provider available".data) := by
  refine ⟨?_, ?_, ?_⟩
  · intro h
    have hne : m.get_provider pn ≠ none := by
      rw [ne_eq, LLMManager.get_provider_eq_none_iff]
      tauto
    obtain ⟨p, hp⟩ := Option.ne_none_iff_exists'.mp hne
    simp only [LLMManager.generate_content, hp]
    cases hc : call p with
    | ret r =>
      dsimp only
      split
      · exact ⟨_, rfl⟩
      · exact ⟨_, rfl⟩
    | retNone => exact ⟨_, rfl⟩
    | raises msg => exact ⟨_, rfl⟩
  · intro p msg hp hc
    simp only [LLMManager.generate_content, hp, hc]
  · intro h
    simp only [LLMManager.generate_content,
      (LLMManager.get_provider_eq_none_iff m pn).mpr h]

/-- Witness for C1 at a concrete manager: one registered provider whose
call raises `boom` yields exactly the fallback response. -/
theorem claim_C1_generate_content_never_raises_witness :
    LLMManager.generate_content { providers := ["openrouter".data] }
        (fun _ => .raises "boom".data) "general".data none
      = .ok (LLMManager.fallbackResponse "general".data "boom".data) := by
  exact (claim_C1_generate_content_never_raises
      { providers := ["openrouter".data] } (fun _ => .raises "boom".data)
      "general".data none).2.1 "openrouter".data "boom".data (by decide) rfl

/-- C5 (divergence witness): a registered provider returning a non-fallback
response whose trimmed content has fewer than 10 characters does get the
`[Insufficient content ...]` placeholder substituted, but the response
returned by `generate_content` carries `is_real_ai = True`, because the
manager unconditionally re-sets the flag after `_validate_response` cleared
it. -/
theorem claim_C5_insufficient_content_real_ai_overwritten :
    (LLMManager.generate_content { providers := ["openrouter".data] }
        (fun _ => ProviderCall.ret
          { content := "short".data
            provider := some "openrouter".data
            model := some "m".data })
        "general".data none).map (fun r => (r.content, r.is_real_ai))
      = .ok ("[Insufficient content generated for general scenario]".data,
          some true) := by
  rfl

/-- C7: the engagement-rate and success-rate formulas of `CampaignMetrics`,
with the division-by-zero guards exactly as the code has them. -/
theorem claim_C7_campaign_rate_formulas (m : CampaignMetrics) :
    (m.emails_sent ≠ 0 →
      m.calculate_engagement_rate
        = ((m.emails_opened : ℚ) + (m.links_clicked : ℚ)) / (m.emails_sent : ℚ)) ∧
    (m.emails_sent = 0 → m.calculate_engagement_rate = 0) ∧
    (m.emails_sent + m.sms_sent + m.voice_calls_attempted ≠ 0 →
      m.calculate_success_rate
        = ((m.links_clicked : ℚ) + (m.attachments_downloaded : ℚ)
            + (m.credentials_submitted : ℚ) + (m.sms_clicked : ℚ)
            + (m.voice_calls_successful : ℚ))
          / ((m.emails_sent : ℚ) + (m.sms_sent : ℚ)
            + (m.voice_calls_attempted : ℚ))) ∧
    (m.emails_sent + m.sms_sent + m.voice_calls_attempted = 0 →
      m.calculate_success_rate = 0) := by
  unfold CampaignMetrics.calculate_engagement_rate
    CampaignMetrics.calculate_success_rate
  refine ⟨fun h => ?_, fun h => ?_, fun h => ?_, fun h => ?_⟩
  · rw [if_neg h]
  · rw [if_pos h]
  · rw [if_neg h]
    push_cast
    ring
  · rw [if_pos h]

/-- Witness for C7: `emails_sent=100, emails_opened=40, links_clicked=10`
gives engagement rate `0.5`, and all-zero counters give both rates `0`. -/
theorem claim_C7_campaign_rate_formulas_witness :
    CampaignMetrics.calculate_engagement_rate
      { emails_sent := 100, emails_opened := 40, links_clicked := 10 } = 1 / 2 ∧
    CampaignMetrics.calculate_engagement_rate {} = 0 ∧
    CampaignMetrics.calculate_success_rate {} = 0 := by
  refine ⟨?_, ?_, ?_⟩
  · rw [(claim_C7_campaign_rate_formulas
      { emails_sent := 100, emails_opened := 40, links_clicked := 10 }).1
        (by decide)]
    norm_num
  · exact (claim_C7_campaign_rate_formulas {}).2.1 (by decide)
  · exact (claim_C7_campaign_rate_formulas {}).2.2.2 (by decide)

/-- C8 counterexample: a content string that contains `"Subject:"` and
`"From:"`, under threat type `"phishing"`, but also mentions `"phone"`
together with `"call"`, is categorized by the first (phone-scripts) branch,
not as Email Templates. -/
theorem claim_C8_phishing_phone_counterexample :
    containsC "Subject: Update From: IT. Please phone us or call now.".data
        "Subject:".data = true ∧
    containsC "Subject: Update From: IT. Please phone us or call now.".data
        "From:".data = true ∧
    AutoContentSaver.categorize_content
        "Subject: Update From: IT. Please phone us or call now.".data
        "phishing".data
      = ("phone_scripts".data, "Phone Scripts".data) ∧
    (("phone_scripts".data, "Phone Scripts".data) : List Char × List Char)
      ≠ ("email_templates".data, "Email Templates".data) := by
  decide

/-- C8 (amended): `categorize_content` is a pure function of
`(content, threat_type)`; a content string containing `"Subject:"` and
`"From:"` with threat type `"phishing"` is categorized as Email Templates
provided the content does not additionally satisfy the higher-priority
phone-script test (`"phone"` together with `"script"`, `"call"` or
`"conversation"`, case-insensitively); and every content string with threat
type `"social_engineering"` is categorized as Phone Scripts. -/
theorem claim_C8_amended_categorization (content : List Char)
    (_hs : containsC content "Subject:".data = true)
    (_hf : containsC content "From:".data = true)
    (hphone : AutoContentSaver.phoneContentCond (lowerStr content) = false) :
    AutoContentSaver.categorize_content content "phishing".data
      = ("email_templates".data, "Email Templates".data) ∧
    ∀ c : List Char,
      AutoContentSaver.categorize_content c "social_engineering".data
        = ("phone_scripts".data, "Phone Scripts".data) := by
  constructor
  · simp only [AutoContentSaver.categorize_content]
    rw [show AutoContentSaver.ttPhoneCond (lowerStr "phishing".data) = false from
          by decide,
        hphone,
        show AutoContentSaver.ttEmailCond (lowerStr "phishing".data) = true from
          by decide]
    simp
  · intro c
    simp only [AutoContentSaver.categorize_content]
    rw [show AutoContentSaver.ttPhoneCond (lowerStr "social_engineering".data) = true
          from by decide]
    simp

/-- Witness for the amended C8 at a concrete phishing email that does not
trip the phone-script test. -/
theorem claim_C8_amended_categorization_witness :
    AutoContentSaver.categorize_content
        "Subject: Invoice due From: accounts@example.com".data "phishing".data
      = ("email_templates".data, "Email Templates".data) ∧
    AutoContentSaver.categorize_content "hello".data "social_engineering".data
      = ("phone_scripts".data, "Phone Scripts".data) := by
  have h := claim_C8_amended_categorization
    "Subject: Invoice due From: accounts@example.com".data
    (by decide) (by decide) (by decide)
  exact ⟨h.1, h.2 "hello".data⟩

/-- C10: for every `(content, threat_type)` pair, the folder half of
`categorize_content` — the directory `save_content_item` writes under —
is one of the five directories `ensure_directories` creates. -/
theorem mem_ite_of_mem {α : Type} {l : List α} {p : Prop} [Decidable p]
    {x y : α} (hx : x ∈ l) (hy : y ∈ l) : (if p then x else y) ∈ l := by
  by_cases h : p
  · rwa [if_pos h]
  · rwa [if_neg h]

theorem claim_C10_folder_always_exists (content threat_type : List Char) :
    AutoContentSaver.save_content_item_folder content threat_type
      ∈ AutoContentSaver.ensure_directories := by
  simp only [AutoContentSaver.save_content_item_folder,
    AutoContentSaver.categorize_content]
  simp only [apply_ite Prod.fst]
  repeat' apply mem_ite_of_mem
  all_goals decide

/-- C4: in stage content generation, a first provider response with
`finish_reason == "length"` (and nonempty content) triggers exactly one
retry at `int(1.5 * max_tokens)` tokens — the call log is precisely
`[max_tokens, 3 * max_tokens / 2]` — and whatever the retry returns with
nonempty content is accepted as the result, with no second retry, even if
the retry is itself truncated. -/
theorem claim_C4_truncation_retry (llm : Nat → Option ThreatSimulator.StageResponse)
    (max_tokens : Nat) (fallback : List Char) (r : ThreatSimulator.StageResponse)
    (h1 : llm max_tokens = some r) (h2 : r.content ≠ [])
    (h3 : r.finish_reason = some "length".data) :
    (ThreatSimulator.generate_stage_content true llm max_tokens fallback).2
        = [max_tokens, 3 * max_tokens / 2] ∧
    ∀ r2, llm (3 * max_tokens / 2) = some r2 → r2.content ≠ [] →
      (ThreatSimulator.generate_stage_content true llm max_tokens fallback).1
        = r2.content := by
  constructor
  · simp only [ThreatSimulator.generate_stage_content, h1]
    rw [if_neg (by decide : ¬(true = false)), if_neg h2, if_pos h3]
    cases hr : llm (3 * max_tokens / 2) with
    | none => simp
    | some r2 =>
      dsimp only
      split
      · rfl
      · rfl
  · intro r2 hr2 hne
    simp only [ThreatSimulator.generate_stage_content, h1]
    rw [if_neg (by decide : ¬(true = false)), if_neg h2, if_pos h3]
    simp only [hr2]
    rw [if_neg hne]

/-- Witness for C4: under `max_tokens = 800`, a truncated first response
leads to exactly one retry at `1200` tokens whose (still truncated)
content is returned. -/
theorem claim_C4_truncation_retry_witness :
    ThreatSimulator.generate_stage_content true
        (fun n => if n = 800
          then some { content := "first".data, finish_reason := some "length".data }
          else some { content := "retry text".data,
                      finish_reason := some "length".data })
        800 "fb".data
      = ("retry text".data, [800, 1200]) := by
  have h := claim_C4_truncation_retry
    (fun n => if n = 800
      then some { content := "first".data, finish_reason := some "length".data }
      else some { content := "retry text".data,
                  finish_reason := some "length".data })
    800 "fb".data
    { content := "first".data, finish_reason := some "length".data }
    (by decide) (by decide) rfl
  rw [Prod.ext_iff]
  constructor
  · exact h.2 { content := "retry text".data, finish_reason := some "length".data }
      (by decide) (by decide)
  · rw [h.1]

/-- Helper: one non-last retryable attempt (timeout or non-200 status)
adds one attempt and one backoff delay, then continues with the rest. -/
theorem OpenRouterProvider.orLoop_retry_step (att : Nat → OpenRouterProvider.Attempt)
    (model : List Char) (retry_delay : ℚ) (max_retries : Nat)
    (attempt : Nat) (rest : List Nat)
    (hatt : att attempt = .timeout
      ∨ ∃ s ch, att attempt = .response s ch ∧ s ≠ 200)
    (hlast : attempt ≠ max_retries) :
    OpenRouterProvider.orLoop att model retry_delay max_retries (attempt :: rest)
      = ((OpenRouterProvider.orLoop att model retry_delay max_retries rest).1,
         (OpenRouterProvider.orLoop att model retry_delay max_retries rest).2.1 + 1,
         retry_delay * (attempt + 1)
           :: (OpenRouterProvider.orLoop att model retry_delay max_retries rest).2.2) := by
  rcases hatt with h | ⟨s, ch, h, hs⟩
  · simp only [OpenRouterProvider.orLoop, h]
    rw [if_neg hlast]
  · simp only [OpenRouterProvider.orLoop, h]
    rw [if_neg hs, if_neg hlast]

/-- Helper: a retryable last attempt ends the loop with `None`. -/
theorem OpenRouterProvider.orLoop_last (att : Nat → OpenRouterProvider.Attempt)
    (model : List Char) (retry_delay : ℚ) (max_retries : Nat) (rest : List Nat)
    (hatt : att max_retries = .timeout
      ∨ ∃ s ch, att max_retries = .response s ch ∧ s ≠ 200) :
    OpenRouterProvider.orLoop att model retry_delay max_retries
        (max_retries :: rest) = (none, 1, []) := by
  rcases hatt with h | ⟨s, ch, h, hs⟩
  · simp [OpenRouterProvider.orLoop, h]
  · simp only [OpenRouterProvider.orLoop, h]
    rw [if_neg hs]
    simp

/-- C6: with an API key configured, a run of `OpenRouterProvider.
generate_content` in which every HTTP attempt times out or comes back with
a non-200 status performs exactly 3 attempts (initial + 2 retries), sleeps
the linear backoff `retry_delay * attempt_number` = 1.0 s then 2.0 s
between them, and returns `None`; the embedding is a total function, as
every exception is caught inside the loop. -/
theorem claim_C6_openrouter_retry_budget (api_key model : List Char)
    (att : Nat → OpenRouterProvider.Attempt)
    (hfail : ∀ i, i < 3 →
      att i = .timeout ∨ ∃ s ch, att i = .response s ch ∧ s ≠ 200) :
    OpenRouterProvider.generate_content (some api_key) model att
      = (none, 3, [1, 2]) := by
  have hr : List.range 3 = [0, 1, 2] := by decide
  simp only [OpenRouterProvider.generate_content, hr]
  rw [OpenRouterProvider.orLoop_retry_step att model 1 2 0 [1, 2]
        (hfail 0 (by omega)) (by omega),
      OpenRouterProvider.orLoop_retry_step att model 1 2 1 [2]
        (hfail 1 (by omega)) (by omega),
      OpenRouterProvider.orLoop_last att model 1 2 []
        (hfail 2 (by omega))]
  norm_num

/-- Witness for C6: three straight timeouts give exactly
`(None, 3 attempts, backoff delays [1, 2])`. -/
theorem claim_C6_openrouter_retry_budget_witness :
    OpenRouterProvider.generate_content (some "key".data) "m".data
        (fun _ => OpenRouterProvider.Attempt.timeout)
      = (none, 3, [1, 2]) := by
  exact claim_C6_openrouter_retry_budget "key".data "m".data
    (fun _ => OpenRouterProvider.Attempt.timeout)
    (fun i _ => Or.inl rfl)

/-- Helper: when no stage generation failure is critical, the stage loop
appends exactly one stage per configured entry, in configuration order. -/
theorem ThreatSimulator.execute_stages_go_types
    (gen : Nat → ThreatSimulator.StageGen) (clock : Nat → ℚ)
    (hok : ∀ j msg, gen j = .raise msg → ThreatSimulator.criticalC msg = false) :
    ∀ (cfgs : List (List Char × List Char)) (i : Nat) (result : SimulationResult),
      (ThreatSimulator.execute_stages_go gen clock cfgs i result).stages.map
          (fun s => s.stage_type)
        = result.stages.map (fun s => s.stage_type) ++ cfgs.map Prod.fst := by
  intro cfgs
  induction cfgs with
  | nil =>
    intro i result
    simp [ThreatSimulator.execute_stages_go]
  | cons cfg rest ih =>
    intro i result
    cases hg : gen i with
    | ok content =>
      simp only [ThreatSimulator.execute_stages_go, hg]
      rw [ih]
      simp [SimulationResult.add_stage]
    | raise msg =>
      simp only [ThreatSimulator.execute_stages_go, hg]
      rw [hok i msg hg, if_neg (by decide : ¬(false = true))]
      rw [ih]
      simp [SimulationResult.add_stage]

/-- Helper: appending a stage with non-negative duration preserves the
all-durations-non-negative invariant. -/
theorem SimulationResult.add_stage_duration_bound (result : SimulationResult)
    (st : SimulationStage)
    (hres : ∀ s ∈ result.stages, 0 ≤ s.duration_seconds)
    (hst : 0 ≤ st.duration_seconds) :
    ∀ s ∈ (result.add_stage st).stages, 0 ≤ s.duration_seconds := by
  intro s hs
  simp only [SimulationResult.add_stage] at hs
  rcases List.mem_append.mp hs with h | h
  · exact hres s h
  · rw [List.mem_singleton.mp h]
    exact hst

/-- Helper: with a monotone wall clock, every stage the loop appends has a
non-negative `duration_seconds` (failed stages keep the default `0`). -/
theorem ThreatSimulator.execute_stages_go_durations
    (gen : Nat → ThreatSimulator.StageGen) (clock : Nat → ℚ)
    (hmono : Monotone clock) :
    ∀ (cfgs : List (List Char × List Char)) (i : Nat) (result : SimulationResult),
      (∀ s ∈ result.stages, 0 ≤ s.duration_seconds) →
      ∀ s ∈ (ThreatSimulator.execute_stages_go gen clock cfgs i result).stages,
        0 ≤ s.duration_seconds := by
  intro cfgs
  induction cfgs with
  | nil =>
    intro i result hres
    simpa [ThreatSimulator.execute_stages_go] using hres
  | cons cfg rest ih =>
    intro i result hres
    cases hg : gen i with
    | ok content =>
      simp only [ThreatSimulator.execute_stages_go, hg]
      exact ih (i + 1) _ (SimulationResult.add_stage_duration_bound result _ hres
        (sub_nonneg.mpr (hmono (by omega))))
    | raise msg =>
      have hres' := SimulationResult.add_stage_duration_bound result
        { stage_type := cfg.1
          content := "Stage execution failed".data
          success := false
          error_message := some msg
          stage_number := i + 1 } hres (le_refl 0)
      simp only [ThreatSimulator.execute_stages_go, hg]
      split
      · exact hres'
      · exact ih (i + 1) _ hres'

/-- Helper: a first critical generation failure at relative position `j`
truncates the loop: one stage per entry up to and including position `j`,
and the last appended stage is the failed one. -/
theorem ThreatSimulator.execute_stages_go_critical
    (gen : Nat → ThreatSimulator.StageGen) (clock : Nat → ℚ) :
    ∀ (cfgs : List (List Char × List Char)) (j i : Nat)
      (result : SimulationResult) (msg : List Char)
      (hj : j < cfgs.length),
      (∀ d, d < j → ∀ m, gen (i + d) = .raise m →
        ThreatSimulator.criticalC m = false) →
      gen (i + j) = .raise msg → ThreatSimulator.criticalC msg = true →
      (ThreatSimulator.execute_stages_go gen clock cfgs i result).stages.map
          (fun s => s.stage_type)
        = result.stages.map (fun s => s.stage_type)
            ++ (cfgs.take (j + 1)).map Prod.fst
      ∧ (ThreatSimulator.execute_stages_go gen clock cfgs i result).stages.getLast?
          = some { stage_type := (cfgs.get ⟨j, hj⟩).1
                   content := "Stage execution failed".data
                   success := false
                   error_message := some msg
                   duration_seconds := 0
                   stage_number := i + j + 1 } := by
  intro cfgs
  induction cfgs with
  | nil =>
    intro j i result msg hj
    exact absurd hj (by simp)
  | cons cfg rest ih =>
    intro j i result msg hj hbefore hcrit hc
    cases j with
    | zero =>
      rw [Nat.add_zero] at hcrit
      simp only [ThreatSimulator.execute_stages_go, hcrit, hc,
        if_pos (rfl : (true : Bool) = true)]
      constructor
      · simp [SimulationResult.add_stage]
      · simp [SimulationResult.add_stage, List.getLast?_concat]
    | succ d =>
      have hj' : d < rest.length := by
        simpa using hj
      have hbefore' : ∀ e, e < d → ∀ m, gen (i + 1 + e) = .raise m →
          ThreatSimulator.criticalC m = false := by
        intro e he m hm
        refine hbefore (e + 1) (by omega) m ?_
        rwa [show i + (e + 1) = i + 1 + e by omega]
      have hcrit' : gen (i + 1 + d) = .raise msg := by
        rwa [show i + (d + 1) = i + 1 + d by omega] at hcrit
      cases hg : gen i with
      | ok content =>
        obtain ⟨ht, hl⟩ := ih d (i + 1) (result.add_stage
          { stage_type := cfg.1
            content := content
            success := true
            duration_seconds := clock (2 * i + 1) - clock (2 * i)
            stage_number := i + 1 }) msg hj' hbefore' hcrit' hc
        simp only [ThreatSimulator.execute_stages_go, hg]
        constructor
        · rw [ht]
          simp [SimulationResult.add_stage]
        · rw [hl]
          rw [show i + 1 + d = i + (d + 1) by omega]
          simp
      | raise m2 =>
        have hnc : ThreatSimulator.criticalC m2 = false := by
          refine hbefore 0 (by omega) m2 ?_
          rwa [Nat.add_zero]
        obtain ⟨ht, hl⟩ := ih d (i + 1) (result.add_stage
          { stage_type := cfg.1
            content := "Stage execution failed".data
            success := false
            error_message := some m2
            stage_number := i + 1 }) msg hj' hbefore' hcrit' hc
        simp only [ThreatSimulator.execute_stages_go, hg]
        rw [hnc, if_neg (by decide : ¬(false = true))]
        constructor
        · rw [ht]
          simp [SimulationResult.add_stage]
        · rw [hl]
          rw [show i + 1 + d = i + (d + 1) by omega]
          simp

/-- C2 counterexample: with a valid scenario name and `max_stages = 10`, a
run whose first stage generation fails with a message containing
`"critical"` yields a result with exactly 1 stage, not 7. -/
theorem claim_C2_counterexample :
    (ThreatSimulator.execute_simulation 10
        (fun _ => ThreatSimulator.StageGen.raise "critical failure".data)
        (fun _ => (0 : ℚ)) "Test".data).map (fun r => r.stages.length)
      = Except.ok 1 ∧ (1 : Nat) ≠ 7 := by
  constructor
  · rfl
  · decide

/-- C2 (amended): for every scenario with a non-empty name and
`max_stages ≥ 7`, provided no stage generation failure message contains
`"critical"` (case-insensitively), `execute_simulation` returns a result
with exactly 7 stages in the fixed order reconnaissance, attack_planning,
execution, persistence, data_collection, exfiltration, cleanup, each with
non-negative `duration_seconds` (a critical failure instead truncates the
stage list at the failed stage — see C3). -/
theorem claim_C2_amended_seven_stage_pipeline
    (gen : Nat → ThreatSimulator.StageGen) (clock : Nat → ℚ)
    (max_stages : Nat) (scenario_name : List Char)
    (hname : scenario_name ≠ []) (hmax : 7 ≤ max_stages)
    (hmono : Monotone clock)
    (hok : ∀ j msg, gen j = .raise msg → ThreatSimulator.criticalC msg = false) :
    ∃ r, ThreatSimulator.execute_simulation max_stages gen clock scenario_name
        = .ok r
      ∧ r.stages.map (fun s => s.stage_type)
          = ["reconnaissance".data, "attack_planning".data, "execution".data,
             "persistence".data, "data_collection".data, "exfiltration".data,
             "cleanup".data]
      ∧ r.stages.length = 7
      ∧ (∀ s ∈ r.stages, 0 ≤ s.duration_seconds)
      ∧ r.status = SimulationStatus.completed := by
  have htake : ThreatSimulator.stages_config.take max_stages
      = ThreatSimulator.stages_config :=
    List.take_of_length_le (by simpa [ThreatSimulator.stages_config] using hmax)
  have htypes : ((ThreatSimulator.execute_stages max_stages gen clock
      { status := .running }).mark_completed true none).stages.map
        (fun s => s.stage_type)
      = ["reconnaissance".data, "attack_planning".data, "execution".data,
         "persistence".data, "data_collection".data, "exfiltration".data,
         "cleanup".data] := by
    simp only [SimulationResult.mark_completed]
    unfold ThreatSimulator.execute_stages
    rw [htake,
      ThreatSimulator.execute_stages_go_types gen clock hok
        ThreatSimulator.stages_config 0 { status := .running }]
    rfl
  unfold ThreatSimulator.execute_simulation
  rw [if_neg hname]
  refine ⟨_, rfl, htypes, ?_, ?_, rfl⟩
  · have hlen := congrArg List.length htypes
    simpa using hlen
  · show ∀ s ∈ ((ThreatSimulator.execute_stages max_stages gen clock
        { status := .running }).mark_completed true none).stages,
          0 ≤ s.duration_seconds
    simp only [SimulationResult.mark_completed]
    unfold ThreatSimulator.execute_stages
    exact ThreatSimulator.execute_stages_go_durations gen clock hmono _ 0
      { status := .running } (by intro s hs; simp at hs)

/-- Witness for the amended C2: an all-successful run with the identity
clock yields the full 7-stage pipeline. -/
theorem claim_C2_amended_seven_stage_pipeline_witness :
    ∃ r, ThreatSimulator.execute_simulation 10
        (fun _ => ThreatSimulator.StageGen.ok "sample".data)
        (fun n => (n : ℚ)) "Test".data = .ok r
      ∧ r.stages.map (fun s => s.stage_type)
          = ["reconnaissance".data, "attack_planning".data, "execution".data,
             "persistence".data, "data_collection".data, "exfiltration".data,
             "cleanup".data]
      ∧ r.stages.length = 7
      ∧ (∀ s ∈ r.stages, 0 ≤ s.duration_seconds)
      ∧ r.status = SimulationStatus.completed := by
  exact claim_C2_amended_seven_stage_pipeline
    (fun _ => ThreatSimulator.StageGen.ok "sample".data) (fun n => (n : ℚ))
    10 "Test".data (by decide) (by omega)
    (fun a b hab => by dsimp only; exact_mod_cast hab)
    (fun j msg h => by cases h)

/-- C3: if stage `k`'s generation fails with a message containing
`"critical"` (case-insensitively) and no earlier stage failed critically,
the stage list of the returned result ends at that failed stage — exactly
the first `k + 1` configured stage types appear, the last stage is the
failed one — and the result is still transitioned to the terminal
`COMPLETED` state, not left `RUNNING`. -/
theorem claim_C3_critical_short_circuit
    (gen : Nat → ThreatSimulator.StageGen) (clock : Nat → ℚ)
    (max_stages k : Nat) (scenario_name msg : List Char)
    (hname : scenario_name ≠ [])
    (hk : k < (ThreatSimulator.stages_config.take max_stages).length)
    (hbefore : ∀ d, d < k → ∀ m, gen d = .raise m →
      ThreatSimulator.criticalC m = false)
    (hcrit : gen k = .raise msg)
    (hc : ThreatSimulator.criticalC msg = true) :
    ∃ r, ThreatSimulator.execute_simulation max_stages gen clock scenario_name
        = .ok r
      ∧ r.stages.map (fun s => s.stage_type)
          = ((ThreatSimulator.stages_config.take max_stages).take (k + 1)).map
              Prod.fst
      ∧ r.stages.length = k + 1
      ∧ r.stages.getLast?.map (fun s => s.success) = some false
      ∧ r.status = SimulationStatus.completed := by
  have hbefore0 : ∀ d, d < k → ∀ m, gen (0 + d) = .raise m →
      ThreatSimulator.criticalC m = false := by
    intro d hd m hm
    exact hbefore d hd m (by rwa [Nat.zero_add] at hm)
  have hcrit0 : gen (0 + k) = .raise msg := by rwa [Nat.zero_add]
  obtain ⟨ht, hl⟩ := ThreatSimulator.execute_stages_go_critical gen clock
    (ThreatSimulator.stages_config.take max_stages) k 0 { status := .running }
    msg hk hbefore0 hcrit0 hc
  have htypes : ((ThreatSimulator.execute_stages max_stages gen clock
      { status := .running }).mark_completed true none).stages.map
        (fun s => s.stage_type)
      = ((ThreatSimulator.stages_config.take max_stages).take (k + 1)).map
          Prod.fst := by
    simp only [SimulationResult.mark_completed]
    unfold ThreatSimulator.execute_stages
    rw [ht]
    rfl
  unfold ThreatSimulator.execute_simulation
  rw [if_neg hname]
  refine ⟨_, rfl, htypes, ?_, ?_, rfl⟩
  · have hlen := congrArg List.length htypes
    simp only [List.length_map, List.length_take] at hlen
    simp only [List.length_take] at hk
    rw [hlen]
    omega
  · show (((ThreatSimulator.execute_stages max_stages gen clock
        { status := .running }).mark_completed true none).stages.getLast?).map
          (fun s => s.success) = some false
    simp only [SimulationResult.mark_completed]
    unfold ThreatSimulator.execute_stages
    rw [hl]
    rfl

/-- Witness for C3: a critical failure at the very first stage stops the
run after one (failed) stage while the result is still completed. -/
theorem claim_C3_critical_short_circuit_witness :
    ThreatSimulator.criticalC "Critical: abort".data = true ∧
    ∃ r, ThreatSimulator.execute_simulation 10
        (fun _ => ThreatSimulator.StageGen.raise "Critical: abort".data)
        (fun _ => (0 : ℚ)) "Test".data = .ok r
      ∧ r.stages.map (fun s => s.stage_type)
          = ((ThreatSimulator.stages_config.take 10).take 1).map Prod.fst
      ∧ r.stages.length = 1
      ∧ r.stages.getLast?.map (fun s => s.success) = some false
      ∧ r.status = SimulationStatus.completed := by
  refine ⟨by decide, ?_⟩
  exact claim_C3_critical_short_circuit
    (fun _ => ThreatSimulator.StageGen.raise "Critical: abort".data)
    (fun _ => (0 : ℚ)) 10 0 "Test".data "Critical: abort".data
    (by decide) (by decide)
    (fun d hd => absurd hd (Nat.not_lt_zero d))
    rfl (by decide)

/-- Helper: every value `THREAT_TYPE_MAPPINGS` maps to is itself unmapped. -/
theorem TemplateFixer.ttm_target_unmapped (s t : List Char)
    (h : TemplateFixer.THREAT_TYPE_MAPPINGS s = some t) :
    TemplateFixer.THREAT_TYPE_MAPPINGS t = none := by
  unfold TemplateFixer.THREAT_TYPE_MAPPINGS at h
  split_ifs at h
  all_goals injection h with h2
  all_goals subst h2
  all_goals decide

/-- Helper: every value `DELIVERY_VECTOR_MAPPINGS` maps to is unmapped. -/
theorem TemplateFixer.dvm_target_unmapped (s t : List Char)
    (h : TemplateFixer.DELIVERY_VECTOR_MAPPINGS s = some t) :
    TemplateFixer.DELIVERY_VECTOR_MAPPINGS t = none := by
  unfold TemplateFixer.DELIVERY_VECTOR_MAPPINGS at h
  split_ifs at h
  all_goals injection h with h2
  all_goals subst h2
  all_goals decide

/-- Helper: the `threat_type` fix block is idempotent. -/
theorem TemplateFixer.fixThreatType_idem (v : Option YVal) :
    (TemplateFixer.fixThreatType (TemplateFixer.fixThreatType v).2).1 = [] := by
  cases v with
  | none => rfl
  | some y =>
    cases y with
    | str s =>
      cases h : TemplateFixer.THREAT_TYPE_MAPPINGS s with
      | none => simp [TemplateFixer.fixThreatType, h]
      | some t =>
        simp [TemplateFixer.fixThreatType, h,
          TemplateFixer.ttm_target_unmapped s t h]
    | int n => rfl
    | bool b => rfl
    | nil => rfl
    | other => rfl

/-- Helper: the `delivery_vector` fix block is idempotent. -/
theorem TemplateFixer.fixDeliveryVector_idem (v : Option YVal) :
    (TemplateFixer.fixDeliveryVector
      (TemplateFixer.fixDeliveryVector v).2).1 = [] := by
  cases v with
  | none => rfl
  | some y =>
    cases y with
    | str s =>
      cases h : TemplateFixer.DELIVERY_VECTOR_MAPPINGS s with
      | none => simp [TemplateFixer.fixDeliveryVector, h]
      | some t =>
        simp [TemplateFixer.fixDeliveryVector, h,
          TemplateFixer.dvm_target_unmapped s t h]
    | int n => rfl
    | bool b => rfl
    | nil => rfl
    | other => rfl

/-- Helper: the `difficulty_level` fix block is idempotent (a string is
always turned into an integer, converted or defaulted). -/
theorem TemplateFixer.fixDifficulty_idem (v : Option YVal) :
    (TemplateFixer.fixDifficulty (TemplateFixer.fixDifficulty v).2).1 = [] := by
  cases v with
  | none => rfl
  | some y =>
    cases y with
    | str s =>
      cases h : pyInt? s with
      | none => simp [TemplateFixer.fixDifficulty, h]
      | some n => simp [TemplateFixer.fixDifficulty, h]
    | int n => rfl
    | bool b => rfl
    | nil => rfl
    | other => rfl

/-- Helper: the `estimated_duration` fix block is idempotent (a digitless
string is left untouched, with no fix, on both passes). -/
theorem TemplateFixer.fixDuration_idem (v : Option YVal) :
    (TemplateFixer.fixDuration (TemplateFixer.fixDuration v).2).1 = [] := by
  cases v with
  | none => rfl
  | some y =>
    cases y with
    | str s =>
      cases h : firstDigits s with
      | none => simp [TemplateFixer.fixDuration, h]
      | some ds => simp [TemplateFixer.fixDuration, h]
    | int n => rfl
    | bool b => rfl
    | nil => rfl
    | other => rfl

/-- Helper: an integer-like `simulation_parameters` fix is idempotent. -/
theorem TemplateFixer.fixIntParam_idem (label : List Char) (d : Int)
    (v : Option YVal) :
    (TemplateFixer.fixIntParam label d
      (TemplateFixer.fixIntParam label d v).2).1 = [] := by
  cases v with
  | none => rfl
  | some y =>
    cases y with
    | str s =>
      cases h : pyInt? s with
      | none => simp [TemplateFixer.fixIntParam, h]
      | some n => simp [TemplateFixer.fixIntParam, h]
    | int n => rfl
    | bool b => rfl
    | nil => rfl
    | other => rfl

/-- Helper: a boolean-like `simulation_parameters` fix is idempotent. -/
theorem TemplateFixer.fixBoolParam_idem (label : List Char) (v : Option YVal) :
    (TemplateFixer.fixBoolParam label
      (TemplateFixer.fixBoolParam label v).2).1 = [] := by
  cases v with
  | none => rfl
  | some y => cases y <;> rfl

/-- Helper: the `simulation_parameters` block is idempotent. -/
theorem TemplateFixer.fixSimParams_idem (p : Option TemplateFixer.SimParams) :
    (TemplateFixer.fixSimParams (TemplateFixer.fixSimParams p).2).1 = [] := by
  cases p with
  | none => rfl
  | some q =>
    simp [TemplateFixer.fixSimParams, TemplateFixer.fixIntParam_idem,
      TemplateFixer.fixBoolParam_idem]

/-- Helper: the unsupported-field removal is idempotent: after the first
pass no blacklisted key remains. -/
theorem TemplateFixer.fixUnsupported_idem (present : List (List Char)) :
    (TemplateFixer.fixUnsupported
      (TemplateFixer.fixUnsupported present).2).1 = [] := by
  simp only [TemplateFixer.fixUnsupported]
  rw [List.map_eq_nil_iff, List.filter_eq_nil_iff]
  intro f hf
  simp only [decide_eq_true_eq, List.mem_filter]
  rintro ⟨-, hdec⟩
  exact hdec hf

/-- Helper: refilling an already-filled key records no fix, whatever the
second default is. -/
theorem TemplateFixer.fillField_after (m1 m2 : List Char) (d1 d2 : YVal)
    (v : Option YVal) :
    (TemplateFixer.fillField m2 d2 (TemplateFixer.fillField m1 d1 v).2).1
      = [] := by
  cases v <;> rfl

/-- Helper: the `metadata` block is idempotent (the second pass sees a
present section with every required key and both timestamps filled). -/
theorem TemplateFixer.fixMetadata_idem (stem now1 now2 : List Char)
    (m : Option TemplateFixer.TMetadata) :
    (TemplateFixer.fixMetadata stem now2
      (TemplateFixer.fixMetadata stem now1 m).2).1 = [] := by
  cases m with
  | none =>
    simp [TemplateFixer.fixMetadata, TemplateFixer.fillField_after]
  | some mm =>
    simp [TemplateFixer.fixMetadata, TemplateFixer.fillField_after]

/-- Helper: a validated-value fix whose default is itself valid is
idempotent. -/
theorem TemplateFixer.fixValidated_idem (msg : List Char)
    (valid : List YVal) (d : YVal) (hd : d ∈ valid) (v : Option YVal) :
    (TemplateFixer.fixValidated msg valid d
      (TemplateFixer.fixValidated msg valid d v).2).1 = [] := by
  cases v with
  | none => rfl
  | some w =>
    by_cases hw : w ∈ valid
    · simp [TemplateFixer.fixValidated, hw]
    · simp [TemplateFixer.fixValidated, hw, hd]

/-- Helper: the `target_profile` block is idempotent (each of the four
defaults belongs to its own valid set). -/
theorem TemplateFixer.fixTargetProfile_idem
    (t : Option TemplateFixer.TargetProfile) :
    (TemplateFixer.fixTargetProfile
      (TemplateFixer.fixTargetProfile t).2).1 = [] := by
  cases t with
  | none => rfl
  | some tp =>
    have h1 := TemplateFixer.fixValidated_idem
      "target_profile.seniority: set to valid value".data
      [.str "junior".data, .str "mid".data, .str "senior".data,
       .str "executive".data] (.str "mid".data) (by decide)
    have h2 := TemplateFixer.fixValidated_idem
      "target_profile.technical_level: set to valid value".data
      [.str "low".data, .str "moderate".data, .str "high".data,
       .str "expert".data] (.str "moderate".data) (by decide)
    have h3 := TemplateFixer.fixValidated_idem
      "target_profile.industry: set to valid value".data
      [.str "technology".data, .str "finance".data, .str "healthcare".data,
       .str "government".data, .str "education".data, .str "retail".data,
       .str "manufacturing".data, .str "energy".data,
       .str "telecommunications".data, .str "other".data]
      (.str "technology".data) (by decide)
    have h4 := TemplateFixer.fixValidated_idem
      "target_profile.company_size: set to valid value".data
      [.str "startup".data, .str "small".data, .str "medium".data,
       .str "large".data, .str "enterprise".data]
      (.str "medium".data) (by decide)
    simp [TemplateFixer.fixTargetProfile, h1, h2, h3, h4]

/-- C9: `TemplateFixer.fix_template` is idempotent: immediately re-running
it on the document the first pass produced yields an empty fix list, and
therefore the file-level wrapper creates no new backup and leaves the file
byte-for-byte as the first pass wrote it (a file is only rewritten, behind
a backup, when at least one fix applies). -/
theorem claim_C9_fix_template_idempotent (stem now1 now2 : List Char)
    (t : TemplateFixer.Template) :
    (TemplateFixer.fix_template stem now2
        (TemplateFixer.fix_template stem now1 t).2).1 = [] ∧
    TemplateFixer.fix_template_file stem now2
        (TemplateFixer.fix_template stem now1 t).2
      = ((TemplateFixer.fix_template stem now1 t).2, false) := by
  have h1 : (TemplateFixer.fix_template stem now2
      (TemplateFixer.fix_template stem now1 t).2).1 = [] := by
    simp [TemplateFixer.fix_template, TemplateFixer.fixThreatType_idem,
      TemplateFixer.fixDeliveryVector_idem, TemplateFixer.fixDifficulty_idem,
      TemplateFixer.fixDuration_idem, TemplateFixer.fixSimParams_idem,
      TemplateFixer.fixUnsupported_idem, TemplateFixer.fixMetadata_idem,
      TemplateFixer.fixTargetProfile_idem]
  refine ⟨h1, ?_⟩
  have hp : TemplateFixer.fix_template stem now2
      (TemplateFixer.fix_template stem now1 t).2
      = ([], (TemplateFixer.fix_template stem now2
          (TemplateFixer.fix_template stem now1 t).2).2) := by
    rw [Prod.ext_iff]
    exact ⟨h1, rfl⟩
  unfold TemplateFixer.fix_template_file
  rw [hp]
